import Mathlib

/-!
# Verification of the prior-authorization backend

Shallow embedding of `backend/main.py`, `backend/models.py`,
`backend/observability.py` and `backend/database.py`.

The mutable world of the running service is modelled by `DBState`:
the `prior_auth_requests` table, the `request_logs` audit table, the
Prometheus counters, a logical clock (store-assigned timestamps), and an
accumulator for the seconds slept by the synthetic-delay paths.

Store failures that the claims exercise are modelled by explicit boolean
availability parameters: `logOk` (can the audit table be written?) and
`connOk` (can a connection be opened for the health check?).  All other
store calls are assumed to succeed, matching the normal-operation setting
of the analysed properties.  Raised `HTTPException`s become the `.error`
side of an `Except`; all state mutation performed before the raise is kept
in the returned state, matching Python's global mutation.
-/

namespace PriorAuth

/-- `models.PriorAuthRequest` (the request body after JSON decoding;
the pydantic field constraints are the separate predicate `schemaValid`). -/
structure PriorAuthRequest where
  member_id : String
  provider_npi : String
  diagnosis_code : String
  requested_service : String
deriving DecidableEq, Repr

/-- `models.PriorAuthResponse`: the row shape of `prior_auth_requests`
(and of the `RETURNING` clause of the insert). `created_at` is the
store-assigned logical timestamp. -/
structure PriorAuthResponse where
  id : Nat
  request_id : String
  member_id : String
  provider_npi : String
  diagnosis_code : String
  requested_service : String
  status : String
  created_at : Nat
deriving DecidableEq, Repr

/-- One row of the `request_logs` audit table. -/
structure LogRow where
  request_id : String
  event_type : String
  message : String
  timestamp : Nat
deriving DecidableEq, Repr

/-- `models.ErrorInjection`. -/
structure ErrorInjection where
  error_type : String
deriving DecidableEq, Repr

/-- The acknowledgment body `{"error_triggered": ...}` returned by the
error-injection endpoint for unknown error types. -/
structure ErrorEcho where
  error_triggered : String
deriving DecidableEq, Repr

/-- `models.HealthCheck`. -/
structure HealthCheck where
  status : String
  database : String
  timestamp : Nat
deriving DecidableEq, Repr

/-- A raised `fastapi.HTTPException`: status code and detail message. -/
structure HTTPError where
  statusCode : Nat
  detail : String
deriving DecidableEq, Repr

/-- The Prometheus counters of `observability.py`
(`prior_auth_requests_total`, `prior_auth_validation_failures_total`,
`prior_auth_database_operations_total`), each as a total map from its
label set to its current value. The latency histogram records no fact any
claim depends on and is not carried. -/
structure Metrics where
  requests_total : String → String → Nat
  validation_failures : String → Nat
  database_operations : String → Nat

/-- All counters start at zero. -/
def Metrics.init : Metrics :=
  { requests_total := fun _ _ => 0
    validation_failures := fun _ => 0
    database_operations := fun _ => 0 }

/-- The world state: both tables, the metric registry, the logical clock
used for store-assigned timestamps, and the total seconds slept. -/
structure DBState where
  requests : List PriorAuthResponse
  logs : List LogRow
  metrics : Metrics
  now : Nat
  slept : Nat

/-- `observability.record_request`: increment
`prior_auth_requests_total{status, endpoint}`. -/
def record_request (st ep : String) (s : DBState) : DBState :=
  { s with metrics :=
    { s.metrics with requests_total := fun st' ep' =>
        if st' = st ∧ ep' = ep then s.metrics.requests_total st' ep' + 1
        else s.metrics.requests_total st' ep' } }

/-- `observability.record_validation_failure`: increment
`prior_auth_validation_failures_total{failure_type}`. -/
def record_validation_failure (ft : String) (s : DBState) : DBState :=
  { s with metrics :=
    { s.metrics with validation_failures := fun ft' =>
        if ft' = ft then s.metrics.validation_failures ft' + 1
        else s.metrics.validation_failures ft' } }

/-- `observability.record_database_operation`: increment
`prior_auth_database_operations_total{operation_type}`. -/
def record_database_operation (op : String) (s : DBState) : DBState :=
  { s with metrics :=
    { s.metrics with database_operations := fun op' =>
        if op' = op then s.metrics.database_operations op' + 1
        else s.metrics.database_operations op' } }

/-- The `INSERT INTO request_logs ...` issued through `execute_query`
inside `log_event`. When the audit store is unavailable (`logOk = false`)
the call raises, which `execute_query` re-raises after rollback — so the
failing call leaves the table unchanged. -/
def insertLogRow (logOk : Bool) (request_id event_type message : String)
    (s : DBState) : Except String DBState :=
  if logOk then
    .ok { s with logs := s.logs ++ [⟨request_id, event_type, message, s.now⟩]
                 now := s.now + 1 }
  else .error "ERROR executing query"

/-- `main.log_event`: write one audit row, then record the `insert_log`
database-operation metric; any exception from the write is caught,
logged locally and swallowed (the `try/except` in the source), so the
function is total and a failed write leaves the state untouched. -/
def log_event (logOk : Bool) (request_id event_type message : String)
    (s : DBState) : DBState :=
  match insertLogRow logOk request_id event_type message s with
  | .ok s1 => record_database_operation "insert_log" s1
  | .error _ => s

/-!  Decimal rendering, mirroring Python's `f"{n:05d}"`. -/

/-- Fuel-driven accumulator rendering of a natural number's decimal
digits (most significant first), exactly the classic
digits-by-repeated-division loop used by `int.__format__`.  The fuel
`n + 1` in `decimalRepr` always suffices since `n / 10 < n` for `n ≥ 10`. -/
def decimalReprAux : Nat → Nat → List Char → List Char
  | 0, _, acc => acc
  | fuel + 1, n, acc =>
    if n < 10 then Nat.digitChar (n % 10) :: acc
    else decimalReprAux fuel (n / 10) (Nat.digitChar (n % 10) :: acc)

/-- Decimal digit characters of `n`, most significant first (`[0] → "0"`). -/
def decimalRepr (n : Nat) : List Char := decimalReprAux (n + 1) n []

/-- `f"{n:05d}"`: the decimal digits of `n`, left-padded with `'0'` to a
minimum width of 5 characters. -/
def pad5Chars (n : Nat) : List Char :=
  List.replicate (5 - (decimalRepr n).length) '0' ++ decimalRepr n

/-- `f"{n:05d}"` as a string. -/
def pad5 (n : Nat) : String := ⟨pad5Chars n⟩

/-- The request identifier assigned when the store currently holds
`count` rows is `PA-` followed by `count + 1` zero-padded to 5 digits. -/
def requestIdOfCount (count : Nat) : String := "PA-" ++ pad5 (count + 1)

/-- `main.get_next_request_id`: `SELECT COUNT(*) FROM prior_auth_requests`,
then format `f"PA-{count + 1:05d}"`. -/
def get_next_request_id (s : DBState) : String :=
  requestIdOfCount s.requests.length

/-- Python `str.isdigit` restricted to the ASCII strings this system
handles: non-empty and every character a decimal digit. -/
def pyIsDigit (str : String) : Bool :=
  !str.data.isEmpty && str.data.all Char.isDigit

/-- The validation test of `submit_prior_auth`, literally
`not request.provider_npi.isdigit() or len(request.provider_npi) != 10`. -/
def npiFails (npi : String) : Bool :=
  !pyIsDigit npi || npi.length != 10

/-- The spec-side well-formedness of a provider identifier: a string of
exactly 10 numeric-digit characters. -/
def npiWellFormed (npi : String) : Bool :=
  npi.length == 10 && npi.data.all Char.isDigit

/-- The `if request.member_id == "M99999"` synthetic-delay block: sleeps
2 seconds (span bookkeeping only, no store or metric effect). -/
def vipDelay (member_id : String) (s : DBState) : DBState :=
  if member_id = "M99999" then { s with slept := s.slept + 2 } else s

/-- `main.submit_prior_auth`.  `logOk` says whether the audit table is
writable during this call.  Returns the HTTP outcome (the created row, or
the raised `HTTPException`) together with the final world state. -/
def submit (logOk : Bool) (request : PriorAuthRequest) (s : DBState) :
    Except HTTPError PriorAuthResponse × DBState :=
  let request_id := get_next_request_id s
  let s := vipDelay request.member_id s
  let s := log_event logOk request_id "REQUEST_RECEIVED"
    ("Submitted by provider NPI " ++ request.provider_npi) s
  if npiFails request.provider_npi then
    let s := log_event logOk request_id "VALIDATION_FAILED"
      ("Invalid NPI format: " ++ request.provider_npi) s
    let s := record_validation_failure "invalid_npi_format" s
    let s := record_request "validation_error" "/prior-auth/submit" s
    (.error ⟨400, "Provider NPI must be exactly 10 digits"⟩, s)
  else
    let request_id := get_next_request_id s
    let s := log_event logOk request_id "VALIDATION_PASSED"
      "All required fields validated" s
    let row : PriorAuthResponse :=
      { id := s.requests.length + 1
        request_id := request_id
        member_id := request.member_id
        provider_npi := request.provider_npi
        diagnosis_code := request.diagnosis_code
        requested_service := request.requested_service
        status := "pending"
        created_at := s.now }
    let s := { s with requests := s.requests ++ [row], now := s.now + 1 }
    let s := record_database_operation "insert_request" s
    let s := log_event logOk request_id "SAVED_TO_DATABASE"
      ("Request saved for member " ++ request.member_id) s
    let s := log_event logOk request_id "STATUS_PENDING" "Awaiting review" s
    let s := record_request "success" "/prior-auth/submit" s
    (.ok row, s)

/-- `main.trigger_error` (`POST /prior-auth/test/errors`): three-way case
split on the injected `error_type`. -/
def trigger_error (logOk : Bool) (error : ErrorInjection) (s : DBState) :
    Except HTTPError ErrorEcho × DBState :=
  let error_id := "ERROR-" ++ Nat.repr s.now
  let s := log_event logOk error_id "ERROR_TEST_STARTED"
    ("Testing " ++ error.error_type) s
  if error.error_type = "database_timeout" then
    let s := log_event logOk error_id "DATABASE_SLOW"
      "Simulating 5 second timeout" s
    let s := { s with slept := s.slept + 5 }
    let s := log_event logOk error_id "DATABASE_TIMEOUT"
      "Query exceeded timeout threshold" s
    let s := record_request "timeout_error" "/prior-auth/test/errors" s
    (.error ⟨503, "Database timeout"⟩, s)
  else if error.error_type = "validation_error" then
    let s := log_event logOk error_id "VALIDATION_ERROR"
      "Missing required field" s
    let s := record_request "validation_error" "/prior-auth/test/errors" s
    (.error ⟨400, "Validation failed"⟩, s)
  else
    (.ok { error_triggered := error.error_type }, s)

/-- `database.get_db_connection` as seen by the health check: succeeds or
raises depending on store connectivity. -/
def get_db_connection (connOk : Bool) : Except String Unit :=
  if connOk then .ok () else .error "Could not connect to database"

/-- `main.health_check`: try to open (and close) a connection; the bare
`except:` turns any connectivity failure into a normal `unhealthy`
response — nothing is re-raised. -/
def health_check (connOk : Bool) (s : DBState) : HealthCheck × DBState :=
  match get_db_connection connOk with
  | .ok _ =>
      ({ status := "healthy", database := "connected", timestamp := s.now },
       record_request "success" "/health" s)
  | .error _ =>
      ({ status := "unhealthy", database := "disconnected", timestamp := s.now },
       record_request "error" "/health" s)

/-- The pydantic `Field` constraints of `models.PriorAuthRequest`: the
schema layer admits a body only when every field satisfies its
min/max-length bound (`provider_npi`: min 10, max 10). -/
def schemaValid (r : PriorAuthRequest) : Prop :=
  1 ≤ r.member_id.length ∧ r.member_id.length ≤ 50 ∧
  r.provider_npi.length = 10 ∧
  1 ≤ r.diagnosis_code.length ∧ r.diagnosis_code.length ≤ 20 ∧
  1 ≤ r.requested_service.length ∧ r.requested_service.length ≤ 100

instance : DecidablePred schemaValid := fun r => by
  unfold schemaValid; infer_instance

/-- A serialized run of `submit` calls: fold the submissions through the
state, collecting the `request_id`s of the successful ones in order. -/
def runSubmits (logOk : Bool) : List PriorAuthRequest → DBState →
    List String × DBState
  | [], s => ([], s)
  | r :: rs, s =>
    let step := submit logOk r s
    let rest := runSubmits logOk rs step.2
    match step.1 with
    | .ok resp => (resp.request_id :: rest.1, rest.2)
    | .error _ => (rest.1, rest.2)

/-- Strict character order (by code point), as used for the
lexicographic comparison of request identifiers. -/
def charLtB (a b : Char) : Bool := decide (a < b)

/-- Strict lexicographic order on character lists. -/
def listLexLt : List Char → List Char → Bool
  | [], [] => false
  | [], _ :: _ => true
  | _ :: _, [] => false
  | a :: as, b :: bs =>
    if charLtB a b then true
    else if charLtB b a then false
    else listLexLt as bs

/-- Strict lexicographic order on strings. -/
def strLt (a b : String) : Bool := listLexLt a.data b.data

/-- Full match of the pattern `PA-\d{5}`: the literal prefix `PA-`
followed by exactly five decimal digits. -/
def matchesPAFormat (str : String) : Bool :=
  match str.data with
  | 'P' :: 'A' :: '-' :: rest => rest.length == 5 && rest.all Char.isDigit
  | _ => false

/-- Specification view of `decimalReprAux`: the base-10 digits of `n`,
most significant first, by well-founded recursion on `n`. -/
def digitsBE (n : Nat) : List Nat :=
  if h : n < 10 then [n % 10]
  else digitsBE (n / 10) ++ [n % 10]
decreasing_by omega

/-- The identifiers a serialized run hands out, starting from a store
that currently holds `c` rows: each submission that passes validation is
assigned `requestIdOfCount` of the running count, which grows only on
success. -/
def idsFrom (c : Nat) : List PriorAuthRequest → List String
  | [] => []
  | r :: rs =>
    if npiFails r.provider_npi then idsFrom c rs
    else requestIdOfCount c :: idsFrom (c + 1) rs

/-- The row returned (and persisted) by a successful `submit` on a state
currently holding `s.requests`. -/
def submittedRow (logOk : Bool) (request : PriorAuthRequest) (s : DBState) :
    PriorAuthResponse :=
  { id := s.requests.length + 1
    request_id := requestIdOfCount s.requests.length
    member_id := request.member_id
    provider_npi := request.provider_npi
    diagnosis_code := request.diagnosis_code
    requested_service := request.requested_service
    status := "pending"
    created_at := if logOk then s.now + 2 else s.now }

/-- The audit rows appended by a `submit` that fails validation, when the
audit store is available. -/
def failAuditRows (req : PriorAuthRequest) (s : DBState) : List LogRow :=
  [⟨get_next_request_id s, "REQUEST_RECEIVED",
      "Submitted by provider NPI " ++ req.provider_npi, s.now⟩,
   ⟨get_next_request_id s, "VALIDATION_FAILED",
      "Invalid NPI format: " ++ req.provider_npi, s.now + 1⟩]

/-- The audit rows appended by a fully successful `submit`, when the
audit store is available. -/
def successAuditRows (req : PriorAuthRequest) (s : DBState) : List LogRow :=
  [⟨get_next_request_id s, "REQUEST_RECEIVED",
      "Submitted by provider NPI " ++ req.provider_npi, s.now⟩,
   ⟨get_next_request_id s, "VALIDATION_PASSED",
      "All required fields validated", s.now + 1⟩,
   ⟨get_next_request_id s, "SAVED_TO_DATABASE",
      "Request saved for member " ++ req.member_id, s.now + 3⟩,
   ⟨get_next_request_id s, "STATUS_PENDING", "Awaiting review", s.now + 4⟩]

/-- A fresh world: empty tables, zeroed counters, clock at 0. -/
def emptyState : DBState := ⟨[], [], Metrics.init, 0, 0⟩

/-- The valid sample submission of the spec's test scenario. -/
def sampleValidReq : PriorAuthRequest :=
  ⟨"M10001", "1234567890", "E11.9", "MRI_BRAIN"⟩

/-- A schema-admitted submission whose provider identifier contains
non-digit characters (length 10, so it passes the schema layer). -/
def sampleBadNpiReq : PriorAuthRequest :=
  ⟨"M10001", "BAD_NPI_XX", "E11.9", "MRI_BRAIN"⟩

/-- An arbitrary pre-existing stored row, used to build a store that is
close to the 5-digit identifier capacity. -/
def fillerRow : PriorAuthResponse :=
  ⟨0, "PA-00000", "M00000", "0000000000", "X00", "SVC", "pending", 0⟩

/-- A store already holding 99 998 persisted rows: the next two
identifiers handed out are `PA-99999` and `PA-100000`. -/
def nearCapacityState : DBState :=
  ⟨List.replicate 99998 fillerRow, [], Metrics.init, 0, 0⟩

/-! ## Projection lemmas for the elementary operations -/

@[simp] theorem vipDelay_requests (m : String) (s : DBState) :
    (vipDelay m s).requests = s.requests := by
  unfold vipDelay; split <;> rfl

@[simp] theorem vipDelay_logs (m : String) (s : DBState) :
    (vipDelay m s).logs = s.logs := by
  unfold vipDelay; split <;> rfl

@[simp] theorem vipDelay_metrics (m : String) (s : DBState) :
    (vipDelay m s).metrics = s.metrics := by
  unfold vipDelay; split <;> rfl

@[simp] theorem vipDelay_now (m : String) (s : DBState) :
    (vipDelay m s).now = s.now := by
  unfold vipDelay; split <;> rfl

theorem log_event_false_eq (rid et msg : String) (s : DBState) :
    log_event false rid et msg s = s := rfl

@[simp] theorem log_event_requests (ok : Bool) (rid et msg : String) (s : DBState) :
    (log_event ok rid et msg s).requests = s.requests := by
  cases ok <;> rfl

@[simp] theorem log_event_logs (ok : Bool) (rid et msg : String) (s : DBState) :
    (log_event ok rid et msg s).logs =
      s.logs ++ (if ok then [⟨rid, et, msg, s.now⟩] else []) := by
  cases ok <;> simp [log_event, insertLogRow, record_database_operation]

@[simp] theorem log_event_now (ok : Bool) (rid et msg : String) (s : DBState) :
    (log_event ok rid et msg s).now = if ok then s.now + 1 else s.now := by
  cases ok <;> rfl

@[simp] theorem log_event_requests_total (ok : Bool) (rid et msg : String) (s : DBState) :
    (log_event ok rid et msg s).metrics.requests_total = s.metrics.requests_total := by
  cases ok <;> rfl

@[simp] theorem log_event_validation_failures (ok : Bool) (rid et msg : String) (s : DBState) :
    (log_event ok rid et msg s).metrics.validation_failures =
      s.metrics.validation_failures := by
  cases ok <;> rfl

@[simp] theorem log_event_database_operations (ok : Bool) (rid et msg : String)
    (s : DBState) (op : String) :
    (log_event ok rid et msg s).metrics.database_operations op =
      if ok ∧ op = "insert_log" then s.metrics.database_operations op + 1
      else s.metrics.database_operations op := by
  cases ok <;> simp [log_event, insertLogRow, record_database_operation]

@[simp] theorem log_event_slept (ok : Bool) (rid et msg : String) (s : DBState) :
    (log_event ok rid et msg s).slept = s.slept := by
  cases ok <;> rfl

@[simp] theorem record_request_slept (st ep : String) (s : DBState) :
    (record_request st ep s).slept = s.slept := rfl

@[simp] theorem record_request_requests (st ep : String) (s : DBState) :
    (record_request st ep s).requests = s.requests := rfl

@[simp] theorem record_request_logs (st ep : String) (s : DBState) :
    (record_request st ep s).logs = s.logs := rfl

@[simp] theorem record_request_now (st ep : String) (s : DBState) :
    (record_request st ep s).now = s.now := rfl

@[simp] theorem record_request_requests_total (st ep : String) (s : DBState)
    (st' ep' : String) :
    (record_request st ep s).metrics.requests_total st' ep' =
      if st' = st ∧ ep' = ep then s.metrics.requests_total st' ep' + 1
      else s.metrics.requests_total st' ep' := rfl

@[simp] theorem record_request_validation_failures (st ep : String) (s : DBState) :
    (record_request st ep s).metrics.validation_failures =
      s.metrics.validation_failures := rfl

@[simp] theorem record_request_database_operations (st ep : String) (s : DBState) :
    (record_request st ep s).metrics.database_operations =
      s.metrics.database_operations := rfl

@[simp] theorem record_validation_failure_requests (ft : String) (s : DBState) :
    (record_validation_failure ft s).requests = s.requests := rfl

@[simp] theorem record_validation_failure_logs (ft : String) (s : DBState) :
    (record_validation_failure ft s).logs = s.logs := rfl

@[simp] theorem record_validation_failure_now (ft : String) (s : DBState) :
    (record_validation_failure ft s).now = s.now := rfl

@[simp] theorem record_validation_failure_requests_total (ft : String) (s : DBState) :
    (record_validation_failure ft s).metrics.requests_total =
      s.metrics.requests_total := rfl

@[simp] theorem record_validation_failure_validation_failures (ft : String)
    (s : DBState) (ft' : String) :
    (record_validation_failure ft s).metrics.validation_failures ft' =
      if ft' = ft then s.metrics.validation_failures ft' + 1
      else s.metrics.validation_failures ft' := rfl

@[simp] theorem record_validation_failure_database_operations (ft : String) (s : DBState) :
    (record_validation_failure ft s).metrics.database_operations =
      s.metrics.database_operations := rfl

@[simp] theorem record_database_operation_requests (op : String) (s : DBState) :
    (record_database_operation op s).requests = s.requests := rfl

@[simp] theorem record_database_operation_logs (op : String) (s : DBState) :
    (record_database_operation op s).logs = s.logs := rfl

@[simp] theorem record_database_operation_now (op : String) (s : DBState) :
    (record_database_operation op s).now = s.now := rfl

@[simp] theorem record_database_operation_requests_total (op : String) (s : DBState) :
    (record_database_operation op s).metrics.requests_total =
      s.metrics.requests_total := rfl

@[simp] theorem record_database_operation_validation_failures (op : String) (s : DBState) :
    (record_database_operation op s).metrics.validation_failures =
      s.metrics.validation_failures := rfl

@[simp] theorem record_database_operation_database_operations (op : String)
    (s : DBState) (op' : String) :
    (record_database_operation op s).metrics.database_operations op' =
      if op' = op then s.metrics.database_operations op' + 1
      else s.metrics.database_operations op' := rfl

/-! ## Branch characterizations of `submit` -/

theorem submit_fst_invalid (logOk : Bool) (req : PriorAuthRequest) (s : DBState)
    (h : npiFails req.provider_npi = true) :
    (submit logOk req s).1 = .error ⟨400, "Provider NPI must be exactly 10 digits"⟩ := by
  simp [submit, h]

theorem submit_fst_valid (logOk : Bool) (req : PriorAuthRequest) (s : DBState)
    (h : npiFails req.provider_npi = false) :
    (submit logOk req s).1 = .ok (submittedRow logOk req s) := by
  cases logOk <;>
    simp [submit, h, submittedRow, get_next_request_id, log_event_false_eq]

theorem submit_requests_invalid (logOk : Bool) (req : PriorAuthRequest) (s : DBState)
    (h : npiFails req.provider_npi = true) :
    (submit logOk req s).2.requests = s.requests := by
  simp [submit, h]

theorem submit_requests_valid (logOk : Bool) (req : PriorAuthRequest) (s : DBState)
    (h : npiFails req.provider_npi = false) :
    (submit logOk req s).2.requests = s.requests ++ [submittedRow logOk req s] := by
  cases logOk <;>
    simp [submit, h, submittedRow, get_next_request_id, log_event_false_eq]

theorem submit_logs_invalid (req : PriorAuthRequest) (s : DBState)
    (h : npiFails req.provider_npi = true) :
    (submit true req s).2.logs = s.logs ++ failAuditRows req s := by
  simp [submit, h, failAuditRows]

theorem submit_logs_valid (req : PriorAuthRequest) (s : DBState)
    (h : npiFails req.provider_npi = false) :
    (submit true req s).2.logs = s.logs ++ successAuditRows req s := by
  simp [submit, h, successAuditRows, get_next_request_id]

theorem submit_logs_unavailable (logOk : Bool) (req : PriorAuthRequest) (s : DBState)
    (h : logOk = false) :
    (submit logOk req s).2.logs = s.logs := by
  subst h
  by_cases hv : npiFails req.provider_npi <;> simp [submit, hv]

theorem submit_requests_total_invalid (logOk : Bool) (req : PriorAuthRequest)
    (s : DBState) (h : npiFails req.provider_npi = true) (st ep : String) :
    (submit logOk req s).2.metrics.requests_total st ep =
      if st = "validation_error" ∧ ep = "/prior-auth/submit" then
        s.metrics.requests_total st ep + 1
      else s.metrics.requests_total st ep := by
  simp [submit, h]

theorem submit_requests_total_valid (logOk : Bool) (req : PriorAuthRequest)
    (s : DBState) (h : npiFails req.provider_npi = false) (st ep : String) :
    (submit logOk req s).2.metrics.requests_total st ep =
      if st = "success" ∧ ep = "/prior-auth/submit" then
        s.metrics.requests_total st ep + 1
      else s.metrics.requests_total st ep := by
  simp [submit, h]

theorem submit_validation_failures_invalid (logOk : Bool) (req : PriorAuthRequest)
    (s : DBState) (h : npiFails req.provider_npi = true) (ft : String) :
    (submit logOk req s).2.metrics.validation_failures ft =
      if ft = "invalid_npi_format" then s.metrics.validation_failures ft + 1
      else s.metrics.validation_failures ft := by
  simp [submit, h]

theorem submit_validation_failures_valid (logOk : Bool) (req : PriorAuthRequest)
    (s : DBState) (h : npiFails req.provider_npi = false) :
    (submit logOk req s).2.metrics.validation_failures =
      s.metrics.validation_failures := by
  funext ft
  simp [submit, h]

theorem submit_database_operations_invalid (req : PriorAuthRequest)
    (s : DBState) (h : npiFails req.provider_npi = true) (op : String) :
    (submit true req s).2.metrics.database_operations op =
      if op = "insert_log" then s.metrics.database_operations op + 2
      else s.metrics.database_operations op := by
  by_cases h1 : op = "insert_log" <;> simp [submit, h, h1]

theorem submit_database_operations_valid (req : PriorAuthRequest)
    (s : DBState) (h : npiFails req.provider_npi = false) (op : String) :
    (submit true req s).2.metrics.database_operations op =
      if op = "insert_log" then s.metrics.database_operations op + 4
      else if op = "insert_request" then s.metrics.database_operations op + 1
      else s.metrics.database_operations op := by
  by_cases h1 : op = "insert_log" <;> by_cases h2 : op = "insert_request" <;>
    simp_all [submit, h]

/-! ## Relating the code's validation test to the spec's NPI predicate -/

/-- The in-code test `not npi.isdigit() or len(npi) != 10` fires exactly
on the provider identifiers that are not well-formed (not a string of
exactly 10 decimal digits). -/
theorem npiFails_eq_not_wellFormed (npi : String) :
    npiFails npi = !npiWellFormed npi := by
  have hl : npi.length = npi.data.length := rfl
  unfold npiFails npiWellFormed pyIsDigit
  rw [hl]
  cases hd : npi.data with
  | nil => simp
  | cons c cs =>
    cases hall : (c :: cs).all Char.isDigit <;>
      cases hlen : ((c :: cs).length == 10) <;> simp [hall, hlen] <;>
        simp at hlen <;> omega

theorem bool_eq_false_of_not_true {b : Bool} (h : ¬ b = true) : b = false := by
  cases b
  · rfl
  · exact absurd rfl h

/-! ## Run-level lemmas for serialized sequences of submissions -/

theorem runSubmits_snd_cons (ok : Bool) (r : PriorAuthRequest)
    (rs : List PriorAuthRequest) (s : DBState) :
    (runSubmits ok (r :: rs) s).2 = (runSubmits ok rs (submit ok r s).2).2 := by
  cases h : (submit ok r s).1 <;> simp [runSubmits, h]

theorem submit_success_counter_step (ok : Bool) (r : PriorAuthRequest) (s : DBState) :
    (submit ok r s).2.metrics.requests_total "success" "/prior-auth/submit" =
      s.metrics.requests_total "success" "/prior-auth/submit" +
        (if npiFails r.provider_npi then 0 else 1) := by
  by_cases hv : npiFails r.provider_npi = true
  · rw [submit_requests_total_invalid ok r s hv]; simp [hv]
  · have hv' := bool_eq_false_of_not_true hv
    rw [submit_requests_total_valid ok r s hv']; simp [hv']

theorem submit_validation_counter_step (ok : Bool) (r : PriorAuthRequest) (s : DBState) :
    (submit ok r s).2.metrics.validation_failures "invalid_npi_format" =
      s.metrics.validation_failures "invalid_npi_format" +
        (if npiFails r.provider_npi then 1 else 0) := by
  by_cases hv : npiFails r.provider_npi = true
  · rw [submit_validation_failures_invalid ok r s hv]; simp [hv]
  · have hv' := bool_eq_false_of_not_true hv
    rw [submit_validation_failures_valid ok r s hv']; simp [hv']

theorem submit_requests_total_mono (ok : Bool) (r : PriorAuthRequest) (s : DBState)
    (st ep : String) :
    s.metrics.requests_total st ep ≤
      (submit ok r s).2.metrics.requests_total st ep := by
  by_cases hv : npiFails r.provider_npi = true
  · rw [submit_requests_total_invalid ok r s hv]; split <;> omega
  · rw [submit_requests_total_valid ok r s (bool_eq_false_of_not_true hv)]
    split <;> omega

theorem submit_validation_failures_mono (ok : Bool) (r : PriorAuthRequest)
    (s : DBState) (ft : String) :
    s.metrics.validation_failures ft ≤
      (submit ok r s).2.metrics.validation_failures ft := by
  by_cases hv : npiFails r.provider_npi = true
  · rw [submit_validation_failures_invalid ok r s hv]; split <;> omega
  · rw [submit_validation_failures_valid ok r s (bool_eq_false_of_not_true hv)]

theorem runSubmits_success_counter (ok : Bool) (reqs : List PriorAuthRequest)
    (s : DBState) :
    (runSubmits ok reqs s).2.metrics.requests_total "success" "/prior-auth/submit" =
      s.metrics.requests_total "success" "/prior-auth/submit" +
        reqs.countP (fun r => !npiFails r.provider_npi) := by
  induction reqs generalizing s with
  | nil => simp [runSubmits]
  | cons r rs ih =>
    rw [runSubmits_snd_cons, ih, submit_success_counter_step, List.countP_cons]
    by_cases hv : npiFails r.provider_npi = true <;> simp [hv]
    omega

theorem runSubmits_validation_counter (ok : Bool) (reqs : List PriorAuthRequest)
    (s : DBState) :
    (runSubmits ok reqs s).2.metrics.validation_failures "invalid_npi_format" =
      s.metrics.validation_failures "invalid_npi_format" +
        reqs.countP (fun r => npiFails r.provider_npi) := by
  induction reqs generalizing s with
  | nil => simp [runSubmits]
  | cons r rs ih =>
    rw [runSubmits_snd_cons, ih, submit_validation_counter_step, List.countP_cons]
    by_cases hv : npiFails r.provider_npi = true <;> simp [hv]
    omega

theorem runSubmits_requests_total_mono (ok : Bool) (reqs : List PriorAuthRequest)
    (s : DBState) (st ep : String) :
    s.metrics.requests_total st ep ≤
      (runSubmits ok reqs s).2.metrics.requests_total st ep := by
  induction reqs generalizing s with
  | nil => simp [runSubmits]
  | cons r rs ih =>
    rw [runSubmits_snd_cons]
    exact le_trans (submit_requests_total_mono ok r s st ep) (ih _)

theorem runSubmits_validation_failures_mono (ok : Bool) (reqs : List PriorAuthRequest)
    (s : DBState) (ft : String) :
    s.metrics.validation_failures ft ≤
      (runSubmits ok reqs s).2.metrics.validation_failures ft := by
  induction reqs generalizing s with
  | nil => simp [runSubmits]
  | cons r rs ih =>
    rw [runSubmits_snd_cons]
    exact le_trans (submit_validation_failures_mono ok r s ft) (ih _)

/-! ## Claim theorems -/

/-- Claim C7: the health check never raises: with store connectivity it
returns `healthy`/`connected` plus a timestamp, and on a connectivity
failure it returns `unhealthy`/`disconnected` as a normal result (the
function is total — the failure outcome is a returned value, not an
error). -/
theorem health_check_never_raises (connOk : Bool) (s : DBState) :
    health_check connOk s =
      ((if connOk then
          { status := "healthy", database := "connected", timestamp := s.now }
        else
          { status := "unhealthy", database := "disconnected", timestamp := s.now }),
       record_request (if connOk then "success" else "error") "/health" s) := by
  cases connOk <;> rfl

/-- Claim C4: `trigger_error` is a three-way case split on `error_type`:
`database_timeout` sleeps the configured 5 seconds and raises a 503;
`validation_error` raises a 400 with no delay; any other string raises
nothing and returns an acknowledgment echoing the given `error_type`. -/
theorem trigger_error_three_way (logOk : Bool) (et : String) (s : DBState) :
    (et = "database_timeout" →
      (trigger_error logOk ⟨et⟩ s).1 = .error ⟨503, "Database timeout"⟩ ∧
      (trigger_error logOk ⟨et⟩ s).2.slept = s.slept + 5) ∧
    (et = "validation_error" →
      (trigger_error logOk ⟨et⟩ s).1 = .error ⟨400, "Validation failed"⟩ ∧
      (trigger_error logOk ⟨et⟩ s).2.slept = s.slept) ∧
    (et ≠ "database_timeout" → et ≠ "validation_error" →
      (trigger_error logOk ⟨et⟩ s).1 = .ok ⟨et⟩ ∧
      (trigger_error logOk ⟨et⟩ s).2.slept = s.slept) := by
  refine ⟨fun h => ?_, fun h => ?_, fun h1 h2 => ?_⟩
  · subst h; constructor <;> simp [trigger_error]
  · subst h; constructor <;> simp [trigger_error]
  · constructor <;> simp [trigger_error, h1, h2]

/-- Witness for C4 at the three concrete error types. -/
theorem trigger_error_three_way_witness :
    (trigger_error true ⟨"database_timeout"⟩ emptyState).1 =
        .error ⟨503, "Database timeout"⟩ ∧
    (trigger_error true ⟨"database_timeout"⟩ emptyState).2.slept =
        emptyState.slept + 5 ∧
    (trigger_error true ⟨"validation_error"⟩ emptyState).1 =
        .error ⟨400, "Validation failed"⟩ ∧
    (trigger_error true ⟨"validation_error"⟩ emptyState).2.slept =
        emptyState.slept ∧
    (trigger_error true ⟨"oops"⟩ emptyState).1 = .ok ⟨"oops"⟩ := by
  obtain ⟨h1, h2⟩ :=
    (trigger_error_three_way true "database_timeout" emptyState).1 rfl
  obtain ⟨h3, h4⟩ :=
    (trigger_error_three_way true "validation_error" emptyState).2.1 rfl
  obtain ⟨h5, -⟩ :=
    (trigger_error_three_way true "oops" emptyState).2.2 (by decide) (by decide)
  exact ⟨h1, h2, h3, h4, h5⟩

/-- Claim C6: a failing audit write is caught inside `log_event` and
swallowed — `log_event` is total, a failed write leaves the world
untouched, and audit-store unavailability never changes the primary
outcome of `submit`: a valid candidate is still persisted and answered
with the created row, an invalid one still gets the 400. -/
theorem audit_failure_swallowed (rid et msg : String) (req : PriorAuthRequest)
    (s : DBState) :
    log_event false rid et msg s = s ∧
    (npiFails req.provider_npi = false →
      (submit false req s).1 = .ok (submittedRow false req s) ∧
      (submit false req s).2.requests = s.requests ++ [submittedRow false req s]) ∧
    (npiFails req.provider_npi = true →
      (submit false req s).1 = .error ⟨400, "Provider NPI must be exactly 10 digits"⟩) := by
  refine ⟨rfl, fun h => ⟨?_, ?_⟩, fun h => ?_⟩
  · exact submit_fst_valid false req s h
  · exact submit_requests_valid false req s h
  · exact submit_fst_invalid false req s h

/-- Witness for C6: with the audit store down, a concrete valid
submission still succeeds and persists its row. -/
theorem audit_failure_swallowed_witness :
    log_event false "PA-00001" "REQUEST_RECEIVED" "msg" emptyState = emptyState ∧
    (submit false sampleValidReq emptyState).1 =
      .ok (submittedRow false sampleValidReq emptyState) ∧
    (submit false sampleValidReq emptyState).2.requests =
      emptyState.requests ++ [submittedRow false sampleValidReq emptyState] := by
  obtain ⟨h1, h2, -⟩ :=
    audit_failure_swallowed "PA-00001" "REQUEST_RECEIVED" "msg" sampleValidReq
      emptyState
  exact ⟨h1, (h2 (by decide)).1, (h2 (by decide)).2⟩

/-- Claim C1: any submission whose provider identifier is not exactly 10
digit characters is rejected with a 400 `HTTPException`, the
`invalid_npi_format` validation-failure counter is bumped, and no row is
inserted into `prior_auth_requests`. -/
theorem submit_rejects_malformed_npi (logOk : Bool) (req : PriorAuthRequest)
    (s : DBState) (h : npiWellFormed req.provider_npi = false) :
    (submit logOk req s).1 = .error ⟨400, "Provider NPI must be exactly 10 digits"⟩ ∧
    (submit logOk req s).2.requests = s.requests ∧
    (submit logOk req s).2.metrics.validation_failures "invalid_npi_format" =
      s.metrics.validation_failures "invalid_npi_format" + 1 := by
  have hf : npiFails req.provider_npi = true := by
    rw [npiFails_eq_not_wellFormed, h]; rfl
  refine ⟨submit_fst_invalid logOk req s hf, submit_requests_invalid logOk req s hf, ?_⟩
  rw [submit_validation_failures_invalid logOk req s hf]
  simp

/-- Witness for C1 at a concrete malformed provider identifier. -/
theorem submit_rejects_malformed_npi_witness :
    npiWellFormed "BAD_NPI_XX" = false ∧
    (submit true sampleBadNpiReq emptyState).1 =
      .error ⟨400, "Provider NPI must be exactly 10 digits"⟩ ∧
    (submit true sampleBadNpiReq emptyState).2.requests = emptyState.requests ∧
    (submit true sampleBadNpiReq emptyState).2.metrics.validation_failures
        "invalid_npi_format" =
      emptyState.metrics.validation_failures "invalid_npi_format" + 1 := by
  have h := submit_rejects_malformed_npi true sampleBadNpiReq emptyState (by decide)
  exact ⟨by decide, h.1, h.2.1, h.2.2⟩

/-- Claim C9: for any request admitted by the pydantic schema (which pins
`provider_npi` to length exactly 10), the `len != 10` half of the
validation test is dead, and the `invalid_npi_format` branch fires
exactly when `provider_npi` contains at least one non-digit character. -/
theorem npi_branch_reachability (req : PriorAuthRequest) (h : schemaValid req) :
    (req.provider_npi.length != 10) = false ∧
    (npiFails req.provider_npi = true ↔
      ∃ c ∈ req.provider_npi.data, ¬ c.isDigit) := by
  obtain ⟨-, -, hlen, -⟩ := h
  have hdl : req.provider_npi.data.length = 10 := hlen
  have hE : req.provider_npi.data.isEmpty = false := by
    cases hd : req.provider_npi.data with
    | nil => rw [hd] at hdl; simp at hdl
    | cons a as => rfl
  constructor
  · simp [hlen]
  · unfold npiFails pyIsDigit
    rw [hE, hlen]
    simp [List.all_eq_true]

/-- Witness for C9: a schema-admitted request with a malformed NPI. -/
theorem npi_branch_reachability_witness :
    schemaValid sampleBadNpiReq ∧
    ("BAD_NPI_XX".length != 10) = false ∧
    (npiFails "BAD_NPI_XX" = true ↔ ∃ c ∈ "BAD_NPI_XX".data, ¬ c.isDigit) := by
  have h := npi_branch_reachability sampleBadNpiReq (by decide)
  exact ⟨by decide, h.1, h.2⟩

/-- Claim C10: every successful audit write also counts an `insert_log`
database operation, so one fully successful `submit` bumps the
database-operation counter five times: `insert_log` four times (for the
four audit events) and `insert_request` once; no other operation label
moves. -/
theorem successful_submit_dbop_counts (rid et msg : String)
    (req : PriorAuthRequest) (s : DBState)
    (h : npiFails req.provider_npi = false) :
    (log_event true rid et msg s).metrics.database_operations "insert_log" =
      s.metrics.database_operations "insert_log" + 1 ∧
    (submit true req s).2.metrics.database_operations "insert_log" =
      s.metrics.database_operations "insert_log" + 4 ∧
    (submit true req s).2.metrics.database_operations "insert_request" =
      s.metrics.database_operations "insert_request" + 1 ∧
    ∀ op, op ≠ "insert_log" → op ≠ "insert_request" →
      (submit true req s).2.metrics.database_operations op =
        s.metrics.database_operations op := by
  refine ⟨by simp, ?_, ?_, fun op h1 h2 => ?_⟩
  · rw [submit_database_operations_valid req s h]; simp
  · rw [submit_database_operations_valid req s h]; simp
  · rw [submit_database_operations_valid req s h]; simp [h1, h2]

/-- Witness for C10 on a fresh store and the sample valid request. -/
theorem successful_submit_dbop_counts_witness :
    npiFails sampleValidReq.provider_npi = false ∧
    (submit true sampleValidReq emptyState).2.metrics.database_operations
        "insert_log" =
      emptyState.metrics.database_operations "insert_log" + 4 ∧
    (submit true sampleValidReq emptyState).2.metrics.database_operations
        "insert_request" =
      emptyState.metrics.database_operations "insert_request" + 1 ∧
    (submit true sampleValidReq emptyState).2.metrics.database_operations
        "select_requests" =
      emptyState.metrics.database_operations "select_requests" := by
  have h := successful_submit_dbop_counts "x" "y" "z" sampleValidReq emptyState
    (by decide)
  exact ⟨by decide, h.2.1, h.2.2.1, h.2.2.2 "select_requests" (by decide) (by decide)⟩

/-- Claim C8: audit writes never touch `prior_auth_requests`, so the two
count-based identifier computations inside one serialized `submit` agree;
consequently the persisted row carries the same identifier that the
`REQUEST_RECEIVED` audit event was recorded under. -/
theorem request_id_computed_twice_consistent (ok : Bool) (rid et msg : String)
    (req : PriorAuthRequest) (s : DBState)
    (h : npiFails req.provider_npi = false) :
    (log_event ok rid et msg s).requests = s.requests ∧
    get_next_request_id (log_event ok rid et msg (vipDelay req.member_id s)) =
      get_next_request_id s ∧
    (submit true req s).1 = .ok (submittedRow true req s) ∧
    (submittedRow true req s).request_id = get_next_request_id s ∧
    (submit true req s).2.logs = s.logs ++ successAuditRows req s ∧
    (successAuditRows req s).map (fun l => l.request_id) =
      List.replicate 4 (get_next_request_id s) := by
  refine ⟨log_event_requests ok rid et msg s, by simp [get_next_request_id],
    submit_fst_valid true req s h, rfl, submit_logs_valid req s h, ?_⟩
  simp [successAuditRows, List.replicate]

/-- Witness for C8 on a fresh store. -/
theorem request_id_computed_twice_consistent_witness :
    npiFails sampleValidReq.provider_npi = false ∧
    (submit true sampleValidReq emptyState).1 =
      .ok (submittedRow true sampleValidReq emptyState) ∧
    (submittedRow true sampleValidReq emptyState).request_id =
      get_next_request_id emptyState := by
  have h := request_id_computed_twice_consistent true "r" "e" "m" sampleValidReq
    emptyState (by decide)
  exact ⟨by decide, h.2.2.1, h.2.2.2.1⟩

/-- Claim C2: every `submit` (with the audit store up) appends to the
audit trail, under the identifier assigned to the call, exactly
`[REQUEST_RECEIVED, VALIDATION_FAILED]` when validation fails and exactly
`[REQUEST_RECEIVED, VALIDATION_PASSED, SAVED_TO_DATABASE, STATUS_PENDING]`
when it succeeds — so the trail always holds a `REQUEST_RECEIVED` event
and exactly one of the two event sets, never a mix. -/
theorem submit_audit_trail_shape (req : PriorAuthRequest) (s : DBState) :
    ∃ tail, (submit true req s).2.logs = s.logs ++ tail ∧
      (∀ l ∈ tail, l.request_id = get_next_request_id s) ∧
      tail.map LogRow.event_type =
        (if npiFails req.provider_npi then
          ["REQUEST_RECEIVED", "VALIDATION_FAILED"]
        else
          ["REQUEST_RECEIVED", "VALIDATION_PASSED", "SAVED_TO_DATABASE",
           "STATUS_PENDING"]) ∧
      "REQUEST_RECEIVED" ∈ tail.map LogRow.event_type ∧
      (npiFails req.provider_npi = true ↔
        (submit true req s).1 =
          .error ⟨400, "Provider NPI must be exactly 10 digits"⟩) := by
  by_cases hv : npiFails req.provider_npi
  · refine ⟨failAuditRows req s, submit_logs_invalid req s hv, ?_, ?_, ?_, ?_⟩
    · intro l hl
      rcases hl with _ | ⟨_, _ | ⟨_, h⟩⟩ <;> first | rfl | cases h
    · simp [failAuditRows, hv]
    · simp [failAuditRows]
    · exact ⟨fun _ => submit_fst_invalid true req s hv, fun _ => hv⟩
  · have hv' : npiFails req.provider_npi = false := by
      cases hb : npiFails req.provider_npi
      · rfl
      · exact absurd hb hv
    refine ⟨successAuditRows req s, submit_logs_valid req s hv', ?_, ?_, ?_, ?_⟩
    · intro l hl
      rcases hl with _ | ⟨_, _ | ⟨_, _ | ⟨_, _ | ⟨_, h⟩⟩⟩⟩ <;> first | rfl | cases h
    · simp [successAuditRows, hv']
    · simp [successAuditRows]
    · constructor
      · intro hb; exact absurd hb hv
      · intro he
        rw [submit_fst_valid true req s hv'] at he
        cases he

/-- Witness for C2: the audit-trail shape at the two sample requests. -/
theorem submit_audit_trail_shape_witness :
    (∃ tail, (submit true sampleValidReq emptyState).2.logs =
        emptyState.logs ++ tail ∧
      (∀ l ∈ tail, l.request_id = get_next_request_id emptyState) ∧
      tail.map LogRow.event_type =
        (if npiFails sampleValidReq.provider_npi then
          ["REQUEST_RECEIVED", "VALIDATION_FAILED"]
        else
          ["REQUEST_RECEIVED", "VALIDATION_PASSED", "SAVED_TO_DATABASE",
           "STATUS_PENDING"]) ∧
      "REQUEST_RECEIVED" ∈ tail.map LogRow.event_type ∧
      (npiFails sampleValidReq.provider_npi = true ↔
        (submit true sampleValidReq emptyState).1 =
          .error ⟨400, "Provider NPI must be exactly 10 digits"⟩)) := by
  exact submit_audit_trail_shape sampleValidReq emptyState

/-- Claim C5: over any serialized run of submissions, the
`success`-outcome counter of the submit endpoint grows by exactly the
number N of successful submissions, the `invalid_npi_format`
validation-failure counter by exactly the number M of submissions that
fail validation, and both counters are monotonically non-decreasing at
every operation. -/
theorem metrics_count_submissions (ok : Bool) (reqs : List PriorAuthRequest)
    (s : DBState) :
    (runSubmits ok reqs s).2.metrics.requests_total "success" "/prior-auth/submit" =
      s.metrics.requests_total "success" "/prior-auth/submit" +
        reqs.countP (fun r => !npiFails r.provider_npi) ∧
    (runSubmits ok reqs s).2.metrics.validation_failures "invalid_npi_format" =
      s.metrics.validation_failures "invalid_npi_format" +
        reqs.countP (fun r => npiFails r.provider_npi) ∧
    (∀ r s' st ep, s'.metrics.requests_total st ep ≤
      (submit ok r s').2.metrics.requests_total st ep) ∧
    (∀ r s' ft, s'.metrics.validation_failures ft ≤
      (submit ok r s').2.metrics.validation_failures ft) ∧
    (∀ st ep, s.metrics.requests_total st ep ≤
      (runSubmits ok reqs s).2.metrics.requests_total st ep) ∧
    (∀ ft, s.metrics.validation_failures ft ≤
      (runSubmits ok reqs s).2.metrics.validation_failures ft) := by
  exact ⟨runSubmits_success_counter ok reqs s,
    runSubmits_validation_counter ok reqs s,
    fun r s' st ep => submit_requests_total_mono ok r s' st ep,
    fun r s' ft => submit_validation_failures_mono ok r s' ft,
    fun st ep => runSubmits_requests_total_mono ok reqs s st ep,
    fun ft => runSubmits_validation_failures_mono ok reqs s ft⟩

/-- Witness for C5: a concrete run with two successes and one validation
failure moves the two counters by exactly 2 and 1. -/
theorem metrics_count_submissions_witness :
    ([sampleValidReq, sampleBadNpiReq, sampleValidReq].countP
        (fun r => !npiFails r.provider_npi)) = 2 ∧
    ([sampleValidReq, sampleBadNpiReq, sampleValidReq].countP
        (fun r => npiFails r.provider_npi)) = 1 ∧
    (runSubmits true [sampleValidReq, sampleBadNpiReq, sampleValidReq]
        emptyState).2.metrics.requests_total "success" "/prior-auth/submit" =
      emptyState.metrics.requests_total "success" "/prior-auth/submit" +
        ([sampleValidReq, sampleBadNpiReq, sampleValidReq].countP
          (fun r => !npiFails r.provider_npi)) ∧
    (runSubmits true [sampleValidReq, sampleBadNpiReq, sampleValidReq]
        emptyState).2.metrics.validation_failures "invalid_npi_format" =
      emptyState.metrics.validation_failures "invalid_npi_format" +
        ([sampleValidReq, sampleBadNpiReq, sampleValidReq].countP
          (fun r => npiFails r.provider_npi)) := by
  have h := metrics_count_submissions true
    [sampleValidReq, sampleBadNpiReq, sampleValidReq] emptyState
  exact ⟨by decide, by decide, h.1, h.2.1⟩

/-! ## Decimal rendering and lexicographic order of request identifiers -/

theorem digitsBE_lt10 (n : Nat) (h : n < 10) : digitsBE n = [n % 10] := by
  rw [digitsBE, dif_pos h]

theorem digitsBE_ge10 (n : Nat) (h : 10 ≤ n) :
    digitsBE n = digitsBE (n / 10) ++ [n % 10] := by
  rw [digitsBE, dif_neg (by omega)]

theorem decimalReprAux_eq_digitsBE (fuel : Nat) : ∀ n acc, n < fuel →
    decimalReprAux fuel n acc = (digitsBE n).map Nat.digitChar ++ acc := by
  induction fuel with
  | zero => intro n acc h; omega
  | succ fuel ih =>
    intro n acc h
    by_cases h10 : n < 10
    · simp [decimalReprAux, h10, digitsBE_lt10 n h10]
    · have hlt : n / 10 < fuel := by omega
      simp only [decimalReprAux, if_neg h10]
      rw [ih (n / 10) _ hlt, digitsBE_ge10 n (by omega)]
      simp [List.map_append, List.append_assoc]

theorem decimalRepr_eq_digitsBE (n : Nat) :
    decimalRepr n = (digitsBE n).map Nat.digitChar := by
  have h := decimalReprAux_eq_digitsBE (n + 1) n [] (by omega)
  simpa [decimalRepr] using h

theorem digitChar_zero : Nat.digitChar 0 = '0' := rfl

/-- The `f"{n:05d}"` characters of any `n ≤ 99999` are exactly the five
base-10 digits `n / 10^i % 10`, most significant first. -/
theorem pad5Chars_eq_digits (n : Nat) (hn : n ≤ 99999) :
    pad5Chars n =
      [Nat.digitChar (n / 10000 % 10), Nat.digitChar (n / 1000 % 10),
       Nat.digitChar (n / 100 % 10), Nat.digitChar (n / 10 % 10),
       Nat.digitChar (n % 10)] := by
  by_cases h1 : n < 10
  · have hd : digitsBE n = [n % 10] := digitsBE_lt10 n h1
    have z4 : n / 10000 % 10 = 0 := by omega
    have z3 : n / 1000 % 10 = 0 := by omega
    have z2 : n / 100 % 10 = 0 := by omega
    have z1 : n / 10 % 10 = 0 := by omega
    rw [z4, z3, z2, z1, digitChar_zero]
    simp [pad5Chars, decimalRepr_eq_digitsBE, hd, List.replicate]
  · by_cases h2 : n < 100
    · have hd : digitsBE n = [n / 10 % 10, n % 10] := by
        rw [digitsBE_ge10 n (by omega), digitsBE_lt10 (n / 10) (by omega)]
        have : n / 10 % 10 % 10 = n / 10 % 10 := by omega
        simp [this]
      have z4 : n / 10000 % 10 = 0 := by omega
      have z3 : n / 1000 % 10 = 0 := by omega
      have z2 : n / 100 % 10 = 0 := by omega
      rw [z4, z3, z2, digitChar_zero]
      simp [pad5Chars, decimalRepr_eq_digitsBE, hd, List.replicate]
    · by_cases h3 : n < 1000
      · have hd : digitsBE n = [n / 100 % 10, n / 10 % 10, n % 10] := by
          rw [digitsBE_ge10 n (by omega), digitsBE_ge10 (n / 10) (by omega),
            digitsBE_lt10 (n / 10 / 10) (by omega)]
          have e1 : n / 10 / 10 = n / 100 := by omega
          have e2 : n / 100 % 10 % 10 = n / 100 % 10 := by omega
          simp [e1, e2]
        have z4 : n / 10000 % 10 = 0 := by omega
        have z3 : n / 1000 % 10 = 0 := by omega
        rw [z4, z3, digitChar_zero]
        simp [pad5Chars, decimalRepr_eq_digitsBE, hd, List.replicate]
      · by_cases h4 : n < 10000
        · have hd : digitsBE n =
              [n / 1000 % 10, n / 100 % 10, n / 10 % 10, n % 10] := by
            rw [digitsBE_ge10 n (by omega), digitsBE_ge10 (n / 10) (by omega),
              digitsBE_ge10 (n / 10 / 10) (by omega),
              digitsBE_lt10 (n / 10 / 10 / 10) (by omega)]
            have e1 : n / 10 / 10 = n / 100 := by omega
            have e2 : n / 10 / 10 / 10 = n / 1000 := by omega
            rw [e1] at *
            rw [e2] at *
            simp
          have z4 : n / 10000 % 10 = 0 := by omega
          rw [z4, digitChar_zero]
          simp [pad5Chars, decimalRepr_eq_digitsBE, hd, List.replicate]
        · have hd : digitsBE n =
              [n / 10000 % 10, n / 1000 % 10, n / 100 % 10, n / 10 % 10,
               n % 10] := by
            rw [digitsBE_ge10 n (by omega), digitsBE_ge10 (n / 10) (by omega),
              digitsBE_ge10 (n / 10 / 10) (by omega),
              digitsBE_ge10 (n / 10 / 10 / 10) (by omega),
              digitsBE_lt10 (n / 10 / 10 / 10 / 10) (by omega)]
            have e1 : n / 10 / 10 = n / 100 := by omega
            have e2 : n / 10 / 10 / 10 = n / 1000 := by omega
            have e3 : n / 10 / 10 / 10 / 10 = n / 10000 := by omega
            rw [e1] at *
            rw [e2] at *
            rw [e3] at *
            simp
          rw [pad5Chars, decimalRepr_eq_digitsBE, hd]
          simp [List.replicate]

/-- `Nat.digitChar` is strictly monotone on single digits. -/
theorem digitChar_strictMono : ∀ a, a < 10 → ∀ b, b < 10 → a < b →
    charLtB (Nat.digitChar a) (Nat.digitChar b) = true := by decide

/-- `Nat.digitChar` of a single digit is a digit character. -/
theorem digitChar_isDigit : ∀ a, a < 10 → (Nat.digitChar a).isDigit = true := by
  decide

theorem listLexLt_cons_same (c : Char) (as bs : List Char) :
    listLexLt (c :: as) (c :: bs) = listLexLt as bs := by
  simp [listLexLt, charLtB, lt_irrefl]

theorem listLexLt_cons_lt (a b : Char) (as bs : List Char)
    (h : charLtB a b = true) :
    listLexLt (a :: as) (b :: bs) = true := by
  simp [listLexLt, h]

/-- Lexicographic comparison of two equal-width digit strings follows
the digit-by-digit numeric comparison. -/
theorem listLexLt_digits5 (a4 a3 a2 a1 a0 b4 b3 b2 b1 b0 : Nat)
    (ha4 : a4 < 10) (ha3 : a3 < 10) (ha2 : a2 < 10) (ha1 : a1 < 10)
    (ha0 : a0 < 10) (hb4 : b4 < 10) (hb3 : b3 < 10) (hb2 : b2 < 10)
    (hb1 : b1 < 10) (hb0 : b0 < 10)
    (h : a4 < b4 ∨ a4 = b4 ∧ (a3 < b3 ∨ a3 = b3 ∧ (a2 < b2 ∨ a2 = b2 ∧
      (a1 < b1 ∨ a1 = b1 ∧ a0 < b0)))) :
    listLexLt
      [Nat.digitChar a4, Nat.digitChar a3, Nat.digitChar a2,
       Nat.digitChar a1, Nat.digitChar a0]
      [Nat.digitChar b4, Nat.digitChar b3, Nat.digitChar b2,
       Nat.digitChar b1, Nat.digitChar b0] = true := by
  rcases h with h | ⟨rfl, h⟩
  · exact listLexLt_cons_lt _ _ _ _ (digitChar_strictMono a4 ha4 b4 hb4 h)
  rw [listLexLt_cons_same]
  rcases h with h | ⟨rfl, h⟩
  · exact listLexLt_cons_lt _ _ _ _ (digitChar_strictMono a3 ha3 b3 hb3 h)
  rw [listLexLt_cons_same]
  rcases h with h | ⟨rfl, h⟩
  · exact listLexLt_cons_lt _ _ _ _ (digitChar_strictMono a2 ha2 b2 hb2 h)
  rw [listLexLt_cons_same]
  rcases h with h | ⟨rfl, h⟩
  · exact listLexLt_cons_lt _ _ _ _ (digitChar_strictMono a1 ha1 b1 hb1 h)
  rw [listLexLt_cons_same]
  exact listLexLt_cons_lt _ _ _ _ (digitChar_strictMono a0 ha0 b0 hb0 h)

/-- Any number below 100 000 is the weighted sum of its five base-10
digits. -/
theorem digits5_decomp (m : Nat) (hm : m ≤ 99999) :
    m = 10000 * (m / 10000 % 10) + 1000 * (m / 1000 % 10) +
      100 * (m / 100 % 10) + 10 * (m / 10 % 10) + m % 10 := by
  omega

/-- Pure digit form of the previous fact, friendly to linear
arithmetic: the numeric order of two 5-digit decompositions is decided
by the first differing digit, most significant first. -/
theorem digits5_order (a4 a3 a2 a1 a0 b4 b3 b2 b1 b0 m n : Nat)
    (hm : m = 10000 * a4 + 1000 * a3 + 100 * a2 + 10 * a1 + a0)
    (hn : n = 10000 * b4 + 1000 * b3 + 100 * b2 + 10 * b1 + b0)
    (ha3 : a3 < 10) (ha2 : a2 < 10) (ha1 : a1 < 10) (ha0 : a0 < 10)
    (hb3 : b3 < 10) (hb2 : b2 < 10) (hb1 : b1 < 10) (hb0 : b0 < 10)
    (hmn : m < n) :
    a4 < b4 ∨ a4 = b4 ∧ (a3 < b3 ∨ a3 = b3 ∧ (a2 < b2 ∨ a2 = b2 ∧
      (a1 < b1 ∨ a1 = b1 ∧ a0 < b0))) := by
  omega

/-- The numeric order of two numbers below 100 000 is decided by the
first differing base-10 digit, most significant first. -/
theorem natDigits5_order (m n : Nat) (hmn : m < n) (hn : n ≤ 99999) :
    m / 10000 % 10 < n / 10000 % 10 ∨ m / 10000 % 10 = n / 10000 % 10 ∧
      (m / 1000 % 10 < n / 1000 % 10 ∨ m / 1000 % 10 = n / 1000 % 10 ∧
        (m / 100 % 10 < n / 100 % 10 ∨ m / 100 % 10 = n / 100 % 10 ∧
          (m / 10 % 10 < n / 10 % 10 ∨ m / 10 % 10 = n / 10 % 10 ∧
            m % 10 < n % 10))) := by
  exact digits5_order _ _ _ _ _ _ _ _ _ _ m n
    (digits5_decomp m (by omega)) (digits5_decomp n hn)
    (Nat.mod_lt _ (by omega)) (Nat.mod_lt _ (by omega))
    (Nat.mod_lt _ (by omega)) (Nat.mod_lt _ (by omega))
    (Nat.mod_lt _ (by omega)) (Nat.mod_lt _ (by omega))
    (Nat.mod_lt _ (by omega)) (Nat.mod_lt _ (by omega))
    hmn

theorem listLexLt_pad5 (m n : Nat) (hmn : m < n) (hn : n ≤ 99999) :
    listLexLt (pad5Chars m) (pad5Chars n) = true := by
  rw [pad5Chars_eq_digits m (by omega), pad5Chars_eq_digits n hn]
  exact listLexLt_digits5 _ _ _ _ _ _ _ _ _ _
    (Nat.mod_lt _ (by omega)) (Nat.mod_lt _ (by omega))
    (Nat.mod_lt _ (by omega)) (Nat.mod_lt _ (by omega))
    (Nat.mod_lt _ (by omega)) (Nat.mod_lt _ (by omega))
    (Nat.mod_lt _ (by omega)) (Nat.mod_lt _ (by omega))
    (Nat.mod_lt _ (by omega)) (Nat.mod_lt _ (by omega))
    (natDigits5_order m n hmn hn)

theorem requestId_data (k : Nat) :
    ("PA-" ++ pad5 k).data = 'P' :: 'A' :: '-' :: pad5Chars k := by
  rw [String.data_append]
  rfl

/-- Identifiers are assigned in strictly increasing lexicographic order
as long as the padded number stays within 5 digits. -/
theorem strLt_requestIdOfCount (c1 c2 : Nat) (h : c1 < c2) (hc : c2 + 1 ≤ 99999) :
    strLt (requestIdOfCount c1) (requestIdOfCount c2) = true := by
  unfold strLt requestIdOfCount
  rw [requestId_data, requestId_data, listLexLt_cons_same, listLexLt_cons_same,
    listLexLt_cons_same]
  exact listLexLt_pad5 (c1 + 1) (c2 + 1) (by omega) hc

/-- Below capacity, an assigned identifier fully matches `PA-\d{5}`. -/
theorem matchesPAFormat_requestIdOfCount (c : Nat) (hc : c + 1 ≤ 99999) :
    matchesPAFormat (requestIdOfCount c) = true := by
  unfold matchesPAFormat requestIdOfCount
  rw [requestId_data, pad5Chars_eq_digits (c + 1) hc]
  simp [digitChar_isDigit, Nat.mod_lt]

/-! ## The identifiers handed out by a serialized run -/

theorem submit_requests_length (ok : Bool) (r : PriorAuthRequest) (s : DBState) :
    (submit ok r s).2.requests.length =
      s.requests.length + (if npiFails r.provider_npi then 0 else 1) := by
  by_cases hv : npiFails r.provider_npi = true
  · rw [submit_requests_invalid ok r s hv]; simp [hv]
  · have hv' := bool_eq_false_of_not_true hv
    rw [submit_requests_valid ok r s hv']; simp [hv']

theorem runSubmits_ids (ok : Bool) (reqs : List PriorAuthRequest) (s : DBState) :
    (runSubmits ok reqs s).1 = idsFrom s.requests.length reqs := by
  induction reqs generalizing s with
  | nil => rfl
  | cons r rs ih =>
    by_cases hv : npiFails r.provider_npi = true
    · have hf := submit_fst_invalid ok r s hv
      have hr := submit_requests_invalid ok r s hv
      simp [runSubmits, hf, idsFrom, hv, ih, hr]
    · have hv' := bool_eq_false_of_not_true hv
      have hf := submit_fst_valid ok r s hv'
      have hr := submit_requests_valid ok r s hv'
      simp [runSubmits, hf, idsFrom, hv', ih, hr, submittedRow]

theorem idsFrom_mem (rs : List PriorAuthRequest) : ∀ c x, x ∈ idsFrom c rs →
    ∃ k, c ≤ k ∧ k < c + rs.length ∧ x = requestIdOfCount k := by
  induction rs with
  | nil => intro c x h; simp [idsFrom] at h
  | cons r rs ih =>
    intro c x h
    by_cases hv : npiFails r.provider_npi = true
    · rw [idsFrom, if_pos hv] at h
      obtain ⟨k, h1, h2, h3⟩ := ih c x h
      exact ⟨k, h1, by simp; omega, h3⟩
    · rw [idsFrom, if_neg hv] at h
      rcases h with _ | ⟨_, h⟩
      · exact ⟨c, le_refl c, by simp, rfl⟩
      · obtain ⟨k, h1, h2, h3⟩ := ih (c + 1) x h
        exact ⟨k, by omega, by simp at h2 ⊢; omega, h3⟩

theorem idsFrom_pairwise (rs : List PriorAuthRequest) : ∀ c, c + rs.length ≤ 99999 →
    List.Pairwise (fun a b => strLt a b = true) (idsFrom c rs) := by
  induction rs with
  | nil => intro c _; simp [idsFrom]
  | cons r rs ih =>
    intro c hb
    simp only [List.length_cons] at hb
    by_cases hv : npiFails r.provider_npi = true
    · rw [idsFrom, if_pos hv]
      exact ih c (by omega)
    · rw [idsFrom, if_neg hv]
      refine List.Pairwise.cons ?_ (ih (c + 1) (by omega))
      intro x hx
      obtain ⟨k, h1, h2, h3⟩ := idsFrom_mem rs (c + 1) x hx
      subst h3
      exact strLt_requestIdOfCount c k (by omega) (by omega)

theorem idsFrom_format (rs : List PriorAuthRequest) (c : Nat)
    (hb : c + rs.length ≤ 99999) :
    ∀ x ∈ idsFrom c rs, matchesPAFormat x = true := by
  intro x hx
  obtain ⟨k, h1, h2, h3⟩ := idsFrom_mem rs c x hx
  subst h3
  exact matchesPAFormat_requestIdOfCount k (by omega)

/-- Claim C3 (amended): a valid submission is answered with
`request_id = "PA-" ++ pad5 (count + 1)` — unconditionally — and,
provided the store never exceeds the 5-digit capacity of 99 999 rows
during the run, every identifier a serialized run hands out fully
matches `PA-\d{5}` and is strictly greater (lexicographically) than
every identifier assigned earlier in the run. -/
theorem request_ids_sequential (ok : Bool) (req : PriorAuthRequest)
    (reqs : List PriorAuthRequest) (s : DBState)
    (hval : npiFails req.provider_npi = false)
    (hcap : s.requests.length + reqs.length ≤ 99999) :
    (submit ok req s).1 = .ok (submittedRow ok req s) ∧
    (submittedRow ok req s).request_id = "PA-" ++ pad5 (s.requests.length + 1) ∧
    (∀ x ∈ (runSubmits ok reqs s).1, matchesPAFormat x = true) ∧
    List.Pairwise (fun a b => strLt a b = true) (runSubmits ok reqs s).1 := by
  refine ⟨submit_fst_valid ok req s hval, rfl, ?_, ?_⟩
  · rw [runSubmits_ids]
    exact idsFrom_format reqs s.requests.length hcap
  · rw [runSubmits_ids]
    exact idsFrom_pairwise reqs s.requests.length hcap

/-- Witness for C3 (amended) on a fresh store: the run hands out
`PA-00001`, `PA-00002`, well-formatted and strictly increasing. -/
theorem request_ids_sequential_witness :
    (runSubmits true [sampleValidReq, sampleValidReq] emptyState).1 =
      ["PA-00001", "PA-00002"] ∧
    (∀ x ∈ (runSubmits true [sampleValidReq, sampleValidReq] emptyState).1,
      matchesPAFormat x = true) ∧
    List.Pairwise (fun a b => strLt a b = true)
      (runSubmits true [sampleValidReq, sampleValidReq] emptyState).1 := by
  have h := request_ids_sequential true sampleValidReq
    [sampleValidReq, sampleValidReq] emptyState (by decide) (by decide)
  exact ⟨by decide, h.2.2.1, h.2.2.2⟩

/-- Counterexample to claim C3 as stated: on a store already holding
99 998 rows, a serialized run of two valid submissions is assigned
`PA-99999` and then `PA-100000` — the zero-padded count+1 overflows the
5-digit field, so the second identifier does not match `PA-\d{5}` and is
lexicographically smaller, not greater, than the previously assigned
one. -/
theorem request_ids_overflow_cex :
    (runSubmits true [sampleValidReq, sampleValidReq] nearCapacityState).1 =
      ["PA-99999", "PA-100000"] ∧
    matchesPAFormat "PA-100000" = false ∧
    strLt "PA-99999" "PA-100000" = false ∧
    strLt "PA-100000" "PA-99999" = true := by
  refine ⟨?_, by decide, by decide, by decide⟩
  rw [runSubmits_ids]
  have hl : nearCapacityState.requests.length = 99998 := by
    rw [show nearCapacityState.requests = List.replicate 99998 fillerRow from rfl,
      List.length_replicate]
  rw [hl]
  have hv : npiFails sampleValidReq.provider_npi = false := by decide
  have h1 : requestIdOfCount 99998 = "PA-99999" := by decide
  have h2 : requestIdOfCount 99999 = "PA-100000" := by decide
  simp [idsFrom, hv, h1, h2]

end PriorAuth
